import Mathlib

/-!
Verification development for the TTV pipeline (script-to-video converter).

The Python sources under `src/pipeline/` are shallowly embedded below:
pure string/line processing becomes Lean functions on `String`/`List Char`,
the parser's mutable "current scene" state becomes an explicit `PState`
record threaded through a fold, fallible operations return `Except`, and
external collaborators (hash function, TTS engines, ffmpeg, the WAV file
on disk) are passed in as explicit parameters describing their observable
behaviour.  Python `float` values that the claims depend on only through
exact decimal arithmetic are modelled as `ℚ`.
-/

/-! ## Basic Python string helpers

`pyStrip` models Python's `str.strip()` restricted to ASCII whitespace
(the only whitespace the test corpus and claims exercise); `pySplitNl`
models `str.split('\n')`, which keeps empty pieces and returns `[""]`
for the empty string. -/

def pyStrip (s : String) : String :=
  String.mk (((s.toList.dropWhile Char.isWhitespace).reverse.dropWhile Char.isWhitespace).reverse)

def splitNlAux : List Char → List Char → List String
  | [], acc => [String.mk acc.reverse]
  | c :: t, acc =>
      if c = '\n' then String.mk acc.reverse :: splitNlAux t []
      else splitNlAux t (c :: acc)

def pySplitNl (s : String) : List String := splitNlAux s.toList []

/-- Models Python `f"{n:0{width}d}"`: decimal digits left-padded with zeros. -/
def padZeros (width : Nat) (n : Nat) : String :=
  String.mk (List.replicate (width - (Nat.repr n).length) '0') ++ Nat.repr n

/-- Python `int()` applied to a real value: truncation toward zero. -/
def pyTrunc (q : ℚ) : ℤ := if 0 ≤ q then ⌊q⌋ else -⌊-q⌋

/-! ## Parser data model (src/pipeline/parser.py)

A scene dictionary is embedded as a structure; `start_cue` and
`duration_hint` are `Option` fields whose `none` state corresponds to the
Python value `None` (popped from the dict by `_finalize_scene`, see
`sceneEntries` below). -/

structure DialogueLine where
  speaker : String
  text : String
deriving DecidableEq

structure Scene where
  scene_id : String
  start_cue : Option String
  description : String
  characters : List String
  dialogue : List DialogueLine
  visual_prompts : List String
  duration_hint : Option ℚ
deriving DecidableEq

/-- Parser state: finalized scenes so far, the open scene slot, and the
monotonically increasing scene counter (parser.py lines 34-37). -/
structure PState where
  scenes : List Scene
  current : Option Scene
  counter : Nat
deriving DecidableEq

/-! ### Line matchers

Each matcher embeds one of the `re.match` patterns of `parse_script`,
as applied to the already-`strip()`-ed line (parser.py line 41). -/

/-- Case-insensitive literal-prefix removal, modelling `re.IGNORECASE`
matching of a literal pattern prefix. -/
def stripCI : List Char → List Char → Option (List Char)
  | [], s => some s
  | _ :: _, [] => none
  | p :: ps, c :: cs => if p.toLower = c.toLower then stripCI ps cs else none

def natOfDigits (l : List Char) : Nat :=
  l.foldl (fun a c => a * 10 + (c.toNat - 48)) 0

/-- `^Scene\s+(\d+)[:\-]?\s*(.*)$` (IGNORECASE), parser.py line 53; the
returned title is `group(2).strip()` (line 61). -/
def matchSceneMarker (line : String) : Option (Nat × String) :=
  match stripCI "scene".toList line.toList with
  | none => none
  | some r1 =>
    if (r1.takeWhile Char.isWhitespace).isEmpty then none else
    let r2 := r1.dropWhile Char.isWhitespace
    let ds := r2.takeWhile Char.isDigit
    if ds.isEmpty then none else
    let r3 := r2.dropWhile Char.isDigit
    let r4 := match r3 with
      | c :: t => if c = ':' ∨ c = '-' then t else r3
      | [] => []
    some (natOfDigits ds, pyStrip (String.mk (r4.dropWhile Char.isWhitespace)))

/-- `^Narration:\s*(.+)$` (IGNORECASE), parser.py line 89; returns
`group(1).strip()` (line 91). -/
def matchNarration (line : String) : Option String :=
  match stripCI "narration:".toList line.toList with
  | none => none
  | some r =>
    let t := pyStrip (String.mk r)
    if t = "" then none else some t

/-- A character admissible inside the dialogue speaker group `[A-Za-z\s]`. -/
def isSpeakerChar (c : Char) : Bool :=
  ('A' ≤ c ∧ c ≤ 'Z') ∨ ('a' ≤ c ∧ c ≤ 'z') ∨ c.isWhitespace

/-- `^([A-Z][A-Za-z\s]+?):\s*(.+)$` (case sensitive), parser.py line 100;
the lazy group ends at the first character outside `[A-Za-z\s]`, which must
be the colon; both groups are `.strip()`-ed (lines 102-103). -/
def matchDialogue (line : String) : Option (String × String) :=
  match line.toList with
  | [] => none
  | c :: rest =>
    if ('A' ≤ c ∧ c ≤ 'Z' : Prop) then
      let body := rest.takeWhile isSpeakerChar
      if body.isEmpty then none else
      match rest.dropWhile isSpeakerChar with
      | ':' :: after =>
          let t := pyStrip (String.mk after)
          if t = "" then none
          else some (pyStrip (String.mk (c :: body)), t)
      | _ => none
    else none

/-- `^Visual[:\-]?\s*(.+)$` (IGNORECASE), parser.py line 116; returns
`group(1).strip()` (line 118).  When nothing but whitespace follows a
leading `:`/`-`, the optional group backtracks to empty and the `:`/`-`
itself is captured by `(.+)`. -/
def matchVisual (line : String) : Option String :=
  match stripCI "visual".toList line.toList with
  | none => none
  | some r1 =>
    match r1 with
    | c :: t =>
        if c = ':' ∨ c = '-' then
          let t1 := pyStrip (String.mk t)
          if t1 = "" then some (pyStrip (String.mk (c :: t))) else some t1
        else
          let t1 := pyStrip (String.mk r1)
          if t1 = "" then none else some t1
    | [] => none

/-- Value of `float(group(1))` for `(\d+(?:\.\d+)?)`, as an exact rational. -/
def ratOfParts (ip fd : List Char) : ℚ :=
  (natOfDigits ip : ℚ) + (natOfDigits fd : ℚ) / ((10 : ℚ) ^ fd.length)

/-- The tail of the duration pattern `\s*(?:seconds?|sec|s)?$` after the
number: remaining characters must be optional whitespace then an allowed
unit word (or nothing) ending the line. -/
def durationUnitOk (r : List Char) : Bool :=
  let u := String.mk ((r.dropWhile Char.isWhitespace).map Char.toLower)
  u = "" ∨ u = "seconds" ∨ u = "second" ∨ u = "sec" ∨ u = "s"

/-- `^Duration[:\-]?\s*(\d+(?:\.\d+)?)\s*(?:seconds?|sec|s)?$` (IGNORECASE),
parser.py line 124. -/
def matchDuration (line : String) : Option ℚ :=
  match stripCI "duration".toList line.toList with
  | none => none
  | some r1 =>
    let r2 := match r1 with
      | c :: t => if c = ':' ∨ c = '-' then t else r1
      | [] => []
    let r3 := r2.dropWhile Char.isWhitespace
    let ip := r3.takeWhile Char.isDigit
    if ip.isEmpty then none else
    match r3.dropWhile Char.isDigit with
    | '.' :: t =>
        let fd := t.takeWhile Char.isDigit
        if fd.isEmpty then none
        else if durationUnitOk (t.dropWhile Char.isDigit) then
          some (ratOfParts ip fd)
        else none
    | r4 =>
        if durationUnitOk r4 then some (ratOfParts ip []) else none

/-! ### The line-classification state machine -/

/-- A freshly opened scene dictionary with the given id and description
(parser.py lines 63-71 and 78-86). -/
def newScene (sid : String) (desc : String) : Scene :=
  { scene_id := sid, start_cue := none, description := desc,
    characters := [], dialogue := [], visual_prompts := [], duration_hint := none }

/-- Rules 4-8: narration, dialogue, visual, duration, free-text fallback
applied to the open scene (parser.py lines 88-139). -/
def classifyBody (c : Scene) (line : String) : Scene :=
  match matchNarration line with
  | some t =>
      { c with description := t,
               visual_prompts :=
                 if c.visual_prompts = [] then c.visual_prompts ++ [t]
                 else c.visual_prompts }
  | none =>
  match matchDialogue line with
  | some (sp, tx) =>
      { c with characters :=
                 if c.characters.contains sp then c.characters else c.characters ++ [sp],
               dialogue := c.dialogue ++ [⟨sp, tx⟩] }
  | none =>
  match matchVisual line with
  | some p => { c with visual_prompts := c.visual_prompts ++ [p] }
  | none =>
  match matchDuration line with
  | some q => { c with duration_hint := some q }
  | none =>
    if c.description = "" then
      { c with description := line,
               visual_prompts :=
                 if c.visual_prompts = [] then c.visual_prompts ++ [line]
                 else c.visual_prompts }
    else { c with description := c.description ++ " " ++ line }

/-- `_finalize_scene` (parser.py lines 151-171); the popping of unset
optional fields is reflected by `sceneEntries` below. -/
def finalizeScene (c : Scene) (n : Nat) : Scene :=
  let c1 := if c.scene_id = "" then { c with scene_id := "scene_" ++ padZeros 2 n } else c
  let c2 := if c1.description = "" then { c1 with description := "Scene " ++ Nat.repr n } else c1
  if c2.visual_prompts = [] then { c2 with visual_prompts := [c2.description] } else c2

/-- One iteration of the `while i < len(lines)` loop of `parse_script`
(parser.py lines 40-139) on the raw line `lines[i]`. -/
def processLine (st : PState) (rawLine : String) : PState :=
  let line := pyStrip rawLine
  if line = "" then
    match st.current with
    | some c => { scenes := st.scenes ++ [finalizeScene c st.counter],
                  current := none, counter := st.counter }
    | none => st
  else
    match matchSceneMarker line with
    | some (n, title) =>
        let scenes1 := match st.current with
          | some c => st.scenes ++ [finalizeScene c st.counter]
          | none => st.scenes
        { scenes := scenes1,
          current := some (newScene ("scene_" ++ padZeros 2 n)
                       (if title = "" then "Scene " ++ Nat.repr n else title)),
          counter := st.counter + 1 }
    | none =>
      match st.current with
      | some c => { st with current := some (classifyBody c line) }
      | none =>
          { scenes := st.scenes,
            current := some (classifyBody (newScene ("scene_" ++ padZeros 2 (st.counter + 1)) "") line),
            counter := st.counter + 1 }

inductive ParseError where
  | emptyInput
  | noScenesFound
deriving DecidableEq

/-- The scene list the scan produces: the fold over all lines plus the
trailing finalization of a still-open scene (parser.py lines 40-143). -/
def scanScenes (text : String) : List Scene :=
  let st := (pySplitNl text).foldl processLine ⟨[], none, 0⟩
  match st.current with
  | some c => st.scenes ++ [finalizeScene c st.counter]
  | none => st.scenes

/-- `parse_script` (parser.py lines 11-148): the empty-input guard at
lines 31-32, the scan, and the no-scenes guard at lines 145-146. -/
def parse_script (text : String) : Except ParseError (List Scene) :=
  if pyStrip text = "" then .error .emptyInput
  else if scanScenes text = [] then .error .noScenesFound
  else .ok (scanScenes text)

instance {ε α : Type} [DecidableEq ε] [DecidableEq α] : DecidableEq (Except ε α) := fun a b =>
  match a, b with
  | .error e1, .error e2 =>
      if h : e1 = e2 then isTrue (congrArg Except.error h)
      else isFalse (fun hh => h (Except.error.inj hh))
  | .ok v1, .ok v2 =>
      if h : v1 = v2 then isTrue (congrArg Except.ok h)
      else isFalse (fun hh => h (Except.ok.inj hh))
  | .error _, .ok _ => isFalse (fun hh => Except.noConfusion hh)
  | .ok _, .error _ => isFalse (fun hh => Except.noConfusion hh)

/-! ## Serialized scene record

`_finalize_scene` pops `start_cue`/`duration_hint` from the dict when they
are `None` (parser.py lines 165-169), so the JSON object written by
`parse_file` holds those keys exactly when the values were set.  `JVal` is
the value universe actually occurring in a scene record (with a `null`
constructor available so "no null is ever serialized" is expressible). -/

inductive JVal where
  | null
  | str (s : String)
  | num (q : ℚ)
  | strList (l : List String)
  | dlgList (l : List DialogueLine)
deriving DecidableEq

/-- The key/value entries, in Python dict insertion order, of the dict
returned by `_finalize_scene` (creation order parser.py lines 63-71,
pops at lines 165-169). -/
def sceneEntries (s : Scene) : List (String × JVal) :=
  [("scene_id", JVal.str s.scene_id)]
  ++ (match s.start_cue with
      | some v => [("start_cue", JVal.str v)]
      | none => [])
  ++ [("description", JVal.str s.description),
      ("characters", JVal.strList s.characters),
      ("dialogue", JVal.dlgList s.dialogue),
      ("visual_prompts", JVal.strList s.visual_prompts)]
  ++ (match s.duration_hint with
      | some q => [("duration_hint", JVal.num q)]
      | none => [])

/-! ## Speech synthesizer (src/pipeline/audio_synth.py)

The two TTS engines are external collaborators; an attempt's observable
outcome is either a produced file path or the message of the exception it
raised. -/

inductive EngineResult where
  | ok (path : String)
  | err (msg : String)
deriving DecidableEq

inductive SynthError where
  | emptyText
  | bothFailed (primaryMsg fallbackMsg : String)
deriving DecidableEq

/-- `synthesize` (audio_synth.py lines 13-44): the empty-text guard at
lines 29-30, then the pyttsx3 attempt, then the gTTS fallback, and the
combined failure at line 44. -/
def synthesize (text : String) (primary fallbackEngine : EngineResult) :
    Except SynthError String :=
  if pyStrip text = "" then .error .emptyText
  else
    match primary with
    | .ok p => .ok p
    | .err e1 =>
      match fallbackEngine with
      | .ok p => .ok p
      | .err e2 => .error (.bothFailed e1 e2)

/-! ## Audio normalization (audio_synth.py `_normalize_audio`, lines 115-214)

A decoded WAV is channel count, bytes per sample, frame rate, and the
interleaved decoded sample values (`ℚ` abstracts the integer sample
quantization; clamping bounds are kept).  Branches that raise in Python
(odd interleaved length for a stereo reshape/`tomono`) are `Option`
failures; the enclosing `try/except` turns every failure into "file left
untouched". -/

structure Wav where
  nchannels : Nat
  sampwidth : Nat
  framerate : Nat
  samples : List ℚ
deriving DecidableEq

/-- Sample frames per channel; `duration = nframes / framerate`. -/
def wavDuration (w : Wav) : ℚ := ((w.samples.length : ℚ) / (w.nchannels : ℚ)) / (w.framerate : ℚ)

/-- Pairwise `0.5*l + 0.5*r` downmix (`audioop.tomono(frames, w, 0.5, 0.5)`
and the numpy `reshape(-1, 2).mean(axis=1)`); fails on an odd number of
interleaved samples, where both Python versions raise. -/
def mixPairs : List ℚ → Option (List ℚ)
  | [] => some []
  | [_] => none
  | l :: r :: t => (mixPairs t).map (fun m => (l / 2 + r / 2) :: m)

/-- `audioop.tostereo(frames, w, 1.0, 1.0)`: duplicate every sample. -/
def tostereo (l : List ℚ) : List ℚ := l.foldr (fun x acc => x :: x :: acc) []

def clampQ (lo hi x : ℚ) : ℚ := max lo (min hi x)

def maxSample (w : Nat) : ℚ := 2 ^ (8 * w - 1) - 1

def minSample (w : Nat) : ℚ := -(2 ^ (8 * w - 1) : ℚ)

/-- Integer square root of the mean square (`audioop.rms`); only its
positivity (zero exactly on silence) matters downstream. -/
def rmsInt (l : List ℚ) : Nat :=
  Nat.sqrt (pyTrunc ((l.map (fun x => x ^ 2)).sum / (l.length : ℚ))).toNat

/-- Rational stand-in for `np.sqrt` on a nonnegative rational: exact
enough that it is zero exactly on zero input. -/
def sqrtQ (q : ℚ) : ℚ := ((Nat.sqrt (q.num.toNat * q.den) : ℚ)) / (q.den : ℚ)

/-- The `audioop` branch of `_normalize_audio` (lines 181-210). -/
def normalizeAudioop (w : Wav) : Wav :=
  let monoOpt := if w.nchannels = 2 then mixPairs w.samples else some w.samples
  match monoOpt with
  | none => w
  | some mono =>
    let cur := rmsInt mono
    if cur = 0 then w
    else
      let factor : ℚ := 3000 / (cur : ℚ)
      let normalizedMono :=
        mono.map (fun x => clampQ (minSample w.sampwidth) (maxSample w.sampwidth) (x * factor))
      let outSamples := if w.nchannels = 2 then tostereo normalizedMono else normalizedMono
      { w with samples := outSamples }

/-- The numpy fallback branch of `_normalize_audio` (lines 144-179): the
output is always written mono, 16-bit (`setnchannels(1)`, `setsampwidth(2)`
at lines 175-176). -/
def normalizeNumpy (w : Wav) : Wav :=
  if w.sampwidth = 2 ∨ w.sampwidth = 1 then
    let decoded : List ℚ :=
      if w.sampwidth = 2 then w.samples.map (fun x => x / 32768)
      else w.samples.map (fun x => (x - 128) / 128)
    let monoOpt := if w.nchannels = 2 then mixPairs decoded else some decoded
    match monoOpt with
    | none => w
    | some audio =>
      let cur := sqrtQ (((audio.map (fun x => x ^ 2)).sum) / (audio.length : ℚ))
      if cur = 0 then w
      else
        let factor : ℚ := (3 / 10) / cur
        let clipped := audio.map (fun x => clampQ (-1) 1 (x * factor))
        let outSamples := clipped.map (fun x => ((pyTrunc (x * 32767) : ℤ) : ℚ))
        { nchannels := 1, sampwidth := 2, framerate := w.framerate, samples := outSamples }
  else w

/-- `_normalize_audio` (lines 115-214): the empty-frames early return
(lines 141-142), then the branch on `audioop` availability; every failure
path yields the original audio unchanged. -/
def normalize_audio (audioopAvailable : Bool) (w : Wav) : Wav :=
  if w.samples = [] then w
  else if audioopAvailable then normalizeAudioop w else normalizeNumpy w

/-! ## Audio duration probe (audio_synth.py `get_audio_duration`, lines 230-257) -/

/-- The `wave`-module read: observable outcome of opening the file and
reading its header.  A zero sample rate makes `frames / float(rate)` raise
`ZeroDivisionError`, also caught by the bare `except`. -/
def readWavDuration (header : Option (Nat × Nat)) : Except String ℚ :=
  match header with
  | none => .error "wave decode failed"
  | some (frames, rate) =>
      if rate = 0 then .error "division by zero"
      else .ok ((frames : ℚ) / (rate : ℚ))

/-- The `ffprobe` fallback: the externally observed duration, or any
failure (missing binary, non-zero exit, unparsable output). -/
def ffprobeDuration (probe : Option ℚ) : Except String ℚ :=
  match probe with
  | none => .error "ffprobe failed"
  | some d => .ok d

/-- `get_audio_duration` (lines 230-257): try the WAV header, fall back to
`ffprobe`, and return `0.0` when both fail; every branch is guarded by a
bare `except`, so the function is total. -/
def get_audio_duration (header : Option (Nat × Nat)) (probe : Option ℚ) : ℚ :=
  match readWavDuration header with
  | .ok d => d
  | .error _ =>
    match ffprobeDuration probe with
    | .ok d => d
    | .error _ => 0

/-! ## Frame cache and renderer (src/pipeline/visual_gen.py)

A rendered placeholder image is determined by the inputs the PIL drawing
code consumes (visual_gen.py lines 97-156): the title derived from the
scene id, the word-wrapped prompt text, and the optional description; two
`Image` values are equal exactly when the drawn pixels are. The external
hash (`hashlib.md5`, line 189) is any function of the prompt string alone,
passed in as a parameter. -/

structure Image where
  title : String
  promptText : String
  descText : String
deriving DecidableEq

/-- `scene_id.upper().replace('_', ' ')` (visual_gen.py line 133); the
single-character replace commutes with the per-character upper map. -/
def titleOf (sid : String) : String :=
  String.mk (sid.toList.map (fun c => if c = '_' then ' ' else c.toUpper))

/-- `_render_fallback_frame` (visual_gen.py lines 97-156): title from the
scene id (line 133), prompt text, and the description when non-empty and
different from the prompt (line 146). -/
def render_fallback_frame (prompt : String) (s : Scene) : Image :=
  { title := titleOf s.scene_id,
    promptText := prompt,
    descText := if s.description ≠ "" ∧ s.description ≠ prompt then s.description else "" }

/-- `visual_prompts[0] if visual_prompts else "Scene"` (visual_gen.py
line 71). -/
def primaryPrompt (prompts : List String) : String :=
  match prompts with
  | [] => "Scene"
  | p :: _ => p

/-- The flat cache directory: hash-keyed base images in write order. -/
def lookupCache (cache : List (String × Image)) (k : String) : Option Image :=
  (cache.find? (fun p => p.1 = k)).map Prod.snd

/-- `num_frames = max(1, int(duration * fps_hint))` (visual_gen.py line 44). -/
def num_frames (duration : ℚ) (fps : Nat) : Nat :=
  (max 1 (pyTrunc (duration * (fps : ℚ)))).toNat

/-- `scene.get('duration_hint', 2.0)` (visual_gen.py line 43). -/
def durationOf (s : Scene) : ℚ := s.duration_hint.getD 2

/-- `visual_prompts` with the description fallback (visual_gen.py
lines 47-50). -/
def effectivePrompts (s : Scene) : List String :=
  if s.visual_prompts = [] then [s.description] else s.visual_prompts

/-- `_generate_scene_frames` (visual_gen.py lines 62-94): cache lookup on
the hash of the first prompt, render-and-store on a miss, then write
`num_frames` copies `frame_000001..` of the base image into the scene
directory.  Returns the updated cache and the written (name, content)
frame files. -/
def generate_scene_frames (hash : String → String) (cache : List (String × Image))
    (prompts : List String) (s : Scene) (n : Nat) :
    List (String × Image) × List (String × Image) :=
  let primary := primaryPrompt prompts
  let key := hash primary
  match lookupCache cache key with
  | some img => (cache, (List.range n).map (fun i => ("frame_" ++ padZeros 6 (i + 1), img)))
  | none =>
      let img := render_fallback_frame primary s
      (cache ++ [(key, img)],
       (List.range n).map (fun i => ("frame_" ++ padZeros 6 (i + 1), img)))

/-- The output tree of one `generate_frames` call: the cache directory
contents and, per processed scene, the scene directory name with the frame
files written for that scene. -/
structure RenderOut where
  cache : List (String × Image)
  dirs : List (String × List (String × Image))
deriving DecidableEq

/-- The body of the scene loop of `generate_frames` (visual_gen.py
lines 37-59). -/
def renderStep (hash : String → String) (fps : Nat) (out : RenderOut) (s : Scene) : RenderOut :=
  let n := num_frames (durationOf s) fps
  let res := generate_scene_frames hash out.cache (effectivePrompts s) s n
  { cache := res.1, dirs := out.dirs ++ [(s.scene_id, res.2)] }

/-- `generate_frames` (visual_gen.py lines 11-59): fails when the scene
list is empty (line 29), otherwise renders every scene in order against
the per-invocation cache. -/
def generate_frames (hash : String → String) (scenes : List Scene) (fps : Nat) :
    Except String RenderOut :=
  if scenes = [] then .error "No scenes found in scenes_json"
  else .ok (scenes.foldl (renderStep hash fps) ⟨[], []⟩)

/-! ## Assembler (src/pipeline/assembler.py) -/

inductive AsmError where
  | noFrames
  | missingTool
deriving DecidableEq

/-- `f.lower().endswith(('.png','.jpg','.jpeg'))` (assembler.py line 18),
as a suffix test on the lowercased character list. -/
def isImageFile (f : String) : Bool :=
  ".png".toList.isSuffixOf (f.toList.map Char.toLower) ∨
  ".jpg".toList.isSuffixOf (f.toList.map Char.toLower) ∨
  ".jpeg".toList.isSuffixOf (f.toList.map Char.toLower)

/-- `assemble` (assembler.py lines 14-39) up to the external ffmpeg call:
`files` is the recursive directory walk flattened to full paths;
availability of the muxing tool is the externally observed `_check_ffmpeg`
result.  Returns the lexicographically sorted frame list handed to the
re-encoding loop. -/
def assemble (files : List String) (ffmpegAvailable : Bool) :
    Except AsmError (List String) :=
  let frames := (files.filter isImageFile).mergeSort (fun a b => a ≤ b)
  if frames = [] then .error .noFrames
  else if ¬ ffmpegAvailable then .error .missingTool
  else .ok frames

/-! ## Helper lemmas -/

theorem str_append_ne_empty (a b : String) (h : a ≠ "") : a ++ b ≠ "" := by
  cases a with
  | mk la =>
    cases la with
    | nil => exact absurd rfl h
    | cons c t =>
      cases b with
      | mk lb =>
        intro heq
        have hd : (c :: t ++ lb) = ([] : List Char) := congrArg String.data heq
        simp at hd

theorem scene_default_ne_empty (n : Nat) : ("Scene " ++ Nat.repr n) ≠ "" :=
  str_append_ne_empty _ _ (by decide)

/-- Projections of `finalizeScene` other than the defaulted fields. -/
theorem finalizeScene_frame (c : Scene) (n : Nat) :
    (finalizeScene c n).start_cue = c.start_cue ∧
    (finalizeScene c n).duration_hint = c.duration_hint ∧
    (finalizeScene c n).characters = c.characters ∧
    (finalizeScene c n).dialogue = c.dialogue := by
  unfold finalizeScene
  by_cases h1 : c.scene_id = "" <;> by_cases h2 : c.description = "" <;>
    by_cases h3 : c.visual_prompts = [] <;>
    simp [h1, h2, h3]

theorem finalizeScene_description (c : Scene) (n : Nat) :
    (finalizeScene c n).description =
      if c.description = "" then "Scene " ++ Nat.repr n else c.description := by
  unfold finalizeScene
  by_cases h1 : c.scene_id = "" <;> by_cases h2 : c.description = "" <;>
    by_cases h3 : c.visual_prompts = [] <;>
    simp [h1, h2, h3, scene_default_ne_empty n]

theorem finalizeScene_description_ne (c : Scene) (n : Nat) :
    (finalizeScene c n).description ≠ "" := by
  rw [finalizeScene_description]
  split_ifs with h
  · exact scene_default_ne_empty n
  · exact h

theorem finalizeScene_prompts (c : Scene) (n : Nat) :
    (finalizeScene c n).visual_prompts =
      if c.visual_prompts = [] then [(finalizeScene c n).description] else c.visual_prompts := by
  rw [finalizeScene_description]
  unfold finalizeScene
  by_cases h1 : c.scene_id = "" <;> by_cases h2 : c.description = "" <;>
    by_cases h3 : c.visual_prompts = [] <;>
    simp [h1, h2, h3, scene_default_ne_empty n]

theorem finalizeScene_prompts_ne (c : Scene) (n : Nat) :
    (finalizeScene c n).visual_prompts ≠ [] := by
  rw [finalizeScene_prompts]
  split_ifs with h
  · exact List.cons_ne_nil _ _
  · exact h

theorem matchSceneMarker_empty : matchSceneMarker "" = none := by decide

theorem matchNarration_empty : matchNarration "" = none := by decide

theorem matchSceneMarker_head {l : String} {x : Nat × String}
    (h : matchSceneMarker l = some x) :
    ∃ c cs, l.toList = c :: cs ∧ c.toLower = 's' := by
  unfold matchSceneMarker at h
  cases hl : l.toList with
  | nil =>
      rw [hl] at h
      rw [show stripCI "scene".toList ([] : List Char) = none from rfl] at h
      simp at h
  | cons c cs =>
      refine ⟨c, cs, rfl, ?_⟩
      rw [hl] at h
      rw [show "scene".toList = 's' :: "cene".toList from rfl] at h
      unfold stripCI at h
      by_cases hc : Char.toLower 's' = c.toLower
      · exact hc.symm
      · rw [if_neg hc] at h
        simp at h

theorem matchNarration_head {l : String} {t : String}
    (h : matchNarration l = some t) :
    ∃ c cs, l.toList = c :: cs ∧ c.toLower = 'n' := by
  unfold matchNarration at h
  cases hl : l.toList with
  | nil =>
      rw [hl] at h
      rw [show stripCI "narration:".toList ([] : List Char) = none from rfl] at h
      simp at h
  | cons c cs =>
      refine ⟨c, cs, rfl, ?_⟩
      rw [hl] at h
      rw [show "narration:".toList = 'n' :: "arration:".toList from rfl] at h
      unfold stripCI at h
      by_cases hc : Char.toLower 'n' = c.toLower
      · exact hc.symm
      · rw [if_neg hc] at h
        simp at h

theorem matchSceneMarker_ne_empty {l : String} {x : Nat × String}
    (h : matchSceneMarker l = some x) : l ≠ "" := by
  intro he
  rw [he, matchSceneMarker_empty] at h
  exact Option.noConfusion h

theorem matchNarration_ne_empty {l : String} {t : String}
    (h : matchNarration l = some t) : l ≠ "" := by
  intro he
  rw [he, matchNarration_empty] at h
  exact Option.noConfusion h

/-- A line matching the narration pattern can not match the scene-marker
pattern: the two case-insensitive literal prefixes differ already at the
first character. -/
theorem narration_marker_disjoint {l : String} {t : String}
    (h : matchNarration l = some t) : matchSceneMarker l = none := by
  obtain ⟨c, cs, hl, hc⟩ := matchNarration_head h
  cases hm : matchSceneMarker l with
  | none => rfl
  | some x =>
      obtain ⟨c2, cs2, hl2, hc2⟩ := matchSceneMarker_head hm
      rw [hl] at hl2
      have : c2 = c := (List.cons.inj hl2).1.symm
      rw [this, hc] at hc2
      exact absurd hc2 (by decide)

theorem classifyBody_scene_id (c : Scene) (l : String) :
    (classifyBody c l).scene_id = c.scene_id := by
  unfold classifyBody
  split
  · rfl
  · split
    · rfl
    · split
      · rfl
      · split
        · rfl
        · split <;> rfl

/-- `processLine` only ever extends the finalized-scenes list with
`_finalize_scene` results taken at the current counter. -/
theorem processLine_scenes_shape (st : PState) (l : String) :
    (processLine st l).scenes = st.scenes ∨
    ∃ c, (processLine st l).scenes = st.scenes ++ [finalizeScene c st.counter] := by
  simp only [processLine]
  repeat' split
  all_goals first
    | exact Or.inl rfl
    | exact Or.inr ⟨_, rfl⟩

/-- The finalization invariant carried by every scene the parser pushes. -/
def SceneInv (s : Scene) : Prop := s.description ≠ "" ∧ s.visual_prompts ≠ []

theorem processLine_inv (st : PState) (l : String)
    (h : ∀ s ∈ st.scenes, SceneInv s) :
    ∀ s ∈ (processLine st l).scenes, SceneInv s := by
  rcases processLine_scenes_shape st l with hs | ⟨c, hs⟩
  · rw [hs]; exact h
  · rw [hs]
    intro s hsmem
    rcases List.mem_append.1 hsmem with hold | hnew
    · exact h s hold
    · rcases List.mem_singleton.1 hnew with rfl
      exact ⟨finalizeScene_description_ne c st.counter, finalizeScene_prompts_ne c st.counter⟩

theorem foldl_processLine_inv (ls : List String) :
    ∀ st : PState, (∀ s ∈ st.scenes, SceneInv s) →
    ∀ s ∈ (ls.foldl processLine st).scenes, SceneInv s := by
  induction ls with
  | nil => intro st h; exact h
  | cons l t ih =>
      intro st h
      exact ih (processLine st l) (processLine_inv st l h)

theorem scanScenes_inv (text : String) : ∀ s ∈ scanScenes text, SceneInv s := by
  simp only [scanScenes]
  have h0 : ∀ s ∈ (PState.mk [] none 0).scenes, SceneInv s := by
    intro s hs
    simp at hs
  have h1 := foldl_processLine_inv (pySplitNl text) (PState.mk [] none 0) h0
  split
  · intro s hsmem
    rcases List.mem_append.1 hsmem with hold | hnew
    · exact h1 s hold
    · rcases List.mem_singleton.1 hnew with rfl
      exact ⟨finalizeScene_description_ne _ _, finalizeScene_prompts_ne _ _⟩
  · exact h1

/-- Keys and values of the serialized record: the optional keys are present
exactly when set, and no value is ever the JSON null. -/
theorem sceneEntries_spec (s : Scene) :
    (("start_cue" ∈ (sceneEntries s).map Prod.fst) ↔ s.start_cue ≠ none) ∧
    (("duration_hint" ∈ (sceneEntries s).map Prod.fst) ↔ s.duration_hint ≠ none) ∧
    (∀ p ∈ sceneEntries s, p.2 ≠ JVal.null) := by
  cases hsc : s.start_cue <;> cases hdh : s.duration_hint <;>
    simp [sceneEntries, hsc, hdh]

/-! ## Claim theorems -/

/-- C7: every scene in parse's output satisfies the finalization invariant:
its description is non-empty (defaulting to "Scene {n}" from the counter
when empty), its visual_prompts is non-empty (defaulting to the one-element
list [description] when empty), and the optional fields start_cue and
duration_hint are absent from the record when unset, never present with a
null value. -/
theorem claim_C7_finalization_invariant :
    (∀ (c : Scene) (n : Nat),
      (c.description = "" → (finalizeScene c n).description = "Scene " ++ Nat.repr n) ∧
      (c.visual_prompts = [] →
        (finalizeScene c n).visual_prompts = [(finalizeScene c n).description])) ∧
    (∀ (text : String) (scenes : List Scene), parse_script text = .ok scenes →
      ∀ s ∈ scenes,
        s.description ≠ "" ∧ s.visual_prompts ≠ [] ∧
        (s.start_cue = none → "start_cue" ∉ (sceneEntries s).map Prod.fst) ∧
        (s.duration_hint = none → "duration_hint" ∉ (sceneEntries s).map Prod.fst) ∧
        (∀ p ∈ sceneEntries s, p.2 ≠ JVal.null)) := by
  constructor
  · intro c n
    constructor
    · intro h
      rw [finalizeScene_description, if_pos h]
    · intro h
      rw [finalizeScene_prompts, if_pos h]
  · intro text scenes hok s hs
    have hscenes : scenes = scanScenes text := by
      unfold parse_script at hok
      split_ifs at hok <;> first
        | exact Except.noConfusion hok
        | exact (Except.ok.inj hok).symm
    subst hscenes
    have hinv := scanScenes_inv text s hs
    obtain ⟨hkeys1, hkeys2, hnull⟩ := sceneEntries_spec s
    exact ⟨hinv.1, hinv.2,
      fun hn hmem => (hkeys1.mp hmem) hn,
      fun hn hmem => (hkeys2.mp hmem) hn,
      hnull⟩

def sceneC7 : Scene :=
  { scene_id := "scene_01", start_cue := none, description := "Hello",
    characters := [], dialogue := [], visual_prompts := ["Hello"], duration_hint := none }

theorem claim_C7_witness :
    (finalizeScene (newScene "scene_01" "") 3).description = "Scene 3" ∧
    parse_script "Hello" = .ok [sceneC7] ∧
    sceneC7.description ≠ "" ∧ sceneC7.visual_prompts ≠ [] ∧
    "start_cue" ∉ (sceneEntries sceneC7).map Prod.fst :=
  have hp : parse_script "Hello" = .ok [sceneC7] := by decide
  have h2 := (claim_C7_finalization_invariant.2 "Hello" [sceneC7] hp) sceneC7 (by decide)
  ⟨(claim_C7_finalization_invariant.1 (newScene "scene_01" "") 3).1 (by decide),
   hp, h2.1, h2.2.1, h2.2.2.1 (by decide)⟩

/-- C4: parse fails with EmptyInputError exactly when the input text is
empty or all-whitespace, fails with NoScenesFoundError when the scan
completes with zero finalized scenes, and for whitespace-only input the
empty check short-circuits first; it never returns an empty scene
sequence. -/
theorem claim_C4_error_contract (text : String) :
    (parse_script text = .error .emptyInput ↔ pyStrip text = "") ∧
    (pyStrip text ≠ "" →
      (parse_script text = .error .noScenesFound ↔ scanScenes text = [])) ∧
    parse_script text ≠ .ok [] := by
  unfold parse_script
  by_cases h1 : pyStrip text = ""
  · rw [if_pos h1]
    refine ⟨⟨fun _ => h1, fun _ => rfl⟩, fun hne => absurd h1 hne, ?_⟩
    intro hcon
    exact Except.noConfusion hcon
  · rw [if_neg h1]
    by_cases h2 : scanScenes text = []
    · rw [if_pos h2]
      refine ⟨⟨fun hc => ?_, fun hc => absurd hc h1⟩,
              fun _ => ⟨fun _ => h2, fun _ => rfl⟩, ?_⟩
      · exact ((by decide : ParseError.noScenesFound ≠ ParseError.emptyInput)
          (Except.error.inj hc)).elim
      · intro hcon
        exact Except.noConfusion hcon
    · rw [if_neg h2]
      refine ⟨⟨fun hc => Except.noConfusion hc, fun hc => absurd hc h1⟩,
              fun _ => ⟨fun hc => Except.noConfusion hc, fun hc => absurd hc h2⟩, ?_⟩
      intro hcon
      exact h2 (Except.ok.inj hcon)

theorem claim_C4_witness :
    parse_script " \t\n  " = .error .emptyInput ∧ parse_script "Hi" ≠ .ok [] :=
  ⟨(claim_C4_error_contract " \t\n  ").1.mpr (by decide),
   (claim_C4_error_contract "Hi").2.2⟩

/-- C1 counterexample: on the input "Scene 2: Test" the single (first)
scene is emitted with scene_id "scene_02", taken from the digits written
in the marker, not "scene_01" from the internal counter; the output ids
are therefore not the gapless strictly increasing scene_01, scene_02, ...
the claim asserts. -/
theorem claim_C1_counterexample :
    (parse_script "Scene 2: Test").toOption.map (List.map Scene.scene_id) =
      some ["scene_02"] ∧
    some ["scene_02"] ≠ some ["scene_01"] := by
  constructor
  · decide
  · decide

/-- C1 amended: when a scene-marker line is matched, the new scene is
opened with scene_id scene_{N:02d} and description fallback "Scene {N}"
where N is the number written in the marker itself (the internal counter
is merely incremented); only an implicitly opened scene (non-blank,
non-marker line with no open scene) takes its scene_id from the internal
counter. -/
theorem claim_C1_amended (st : PState) (rawLine : String) :
    (∀ (n : Nat) (title : String),
      matchSceneMarker (pyStrip rawLine) = some (n, title) →
      (processLine st rawLine).current =
        some (newScene ("scene_" ++ padZeros 2 n)
          (if title = "" then "Scene " ++ Nat.repr n else title)) ∧
      (processLine st rawLine).counter = st.counter + 1) ∧
    (st.current = none → pyStrip rawLine ≠ "" →
      matchSceneMarker (pyStrip rawLine) = none →
      ∃ c, (processLine st rawLine).current = some c ∧
        c.scene_id = "scene_" ++ padZeros 2 (st.counter + 1) ∧
        (processLine st rawLine).counter = st.counter + 1) := by
  constructor
  · intro n title h
    have hne : pyStrip rawLine ≠ "" := matchSceneMarker_ne_empty h
    simp only [processLine]
    rw [if_neg hne, h]
    exact ⟨rfl, rfl⟩
  · intro hcur hne hm
    simp only [processLine]
    rw [if_neg hne, hm, hcur]
    exact ⟨_, rfl, classifyBody_scene_id _ _, rfl⟩

theorem claim_C1_amended_witness :
    (processLine ⟨[], none, 0⟩ "Scene 7: Hi").current = some (newScene "scene_07" "Hi") ∧
    (processLine ⟨[], none, 5⟩ "plain prose").counter = 6 := by
  constructor
  · have h := (claim_C1_amended ⟨[], none, 0⟩ "Scene 7: Hi").1 7 "Hi" (by decide)
    rw [h.1]
    decide
  · obtain ⟨c, h1, h2, h3⟩ :=
      (claim_C1_amended ⟨[], none, 5⟩ "plain prose").2 rfl (by decide) (by decide)
    exact h3

/-- C8: for every line matching the narration pattern while a scene is
open, parse sets the open scene's description to the narration's trailing
text, overwriting any previously accumulated description, and appends that
same text to visual_prompts if and only if visual_prompts is still empty
at that point. -/
theorem claim_C8_narration_rule (st : PState) (rawLine : String) (c : Scene) (t : String)
    (hcur : st.current = some c)
    (hn : matchNarration (pyStrip rawLine) = some t) :
    processLine st rawLine =
      { st with
        current := some ({ c with
                           description := t,
                           visual_prompts :=
                             if c.visual_prompts = [] then c.visual_prompts ++ [t]
                             else c.visual_prompts }) } := by
  have hne : pyStrip rawLine ≠ "" := matchNarration_ne_empty hn
  have hm : matchSceneMarker (pyStrip rawLine) = none := narration_marker_disjoint hn
  simp only [processLine]
  rw [if_neg hne, hm, hcur]
  unfold classifyBody
  rw [hn]

theorem claim_C8_witness :
    processLine ⟨[], some { (newScene "scene_01" "old") with visual_prompts := ["vp"] }, 1⟩
        "Narration: fresh" =
      ⟨[], some { (newScene "scene_01" "old") with
                  description := "fresh",
                  visual_prompts := ["vp"] }, 1⟩ := by
  have h := claim_C8_narration_rule
    ⟨[], some { (newScene "scene_01" "old") with visual_prompts := ["vp"] }, 1⟩
    "Narration: fresh" { (newScene "scene_01" "old") with visual_prompts := ["vp"] } "fresh"
    rfl (by decide)
  rw [h]
  decide

/-- C6: synthesize raises EmptyTextError when its text is empty or
whitespace-only, before any engine is tried (the outcome is independent of
both engines); for non-empty text the primary offline engine's success is
returned as-is, any primary failure falls back to the secondary networked
engine, and a failure is raised only when both engines failed, reporting
both underlying causes. -/
theorem claim_C6_synthesize (text : String) (primary fallbackEngine : EngineResult) :
    (pyStrip text = "" → synthesize text primary fallbackEngine = .error .emptyText) ∧
    (pyStrip text ≠ "" →
      (∀ p, primary = .ok p → synthesize text primary fallbackEngine = .ok p) ∧
      (∀ e1 p, primary = .err e1 → fallbackEngine = .ok p →
        synthesize text primary fallbackEngine = .ok p) ∧
      (∀ e1 e2, primary = .err e1 → fallbackEngine = .err e2 →
        synthesize text primary fallbackEngine = .error (.bothFailed e1 e2))) := by
  unfold synthesize
  by_cases h : pyStrip text = ""
  · rw [if_pos h]
    exact ⟨fun _ => rfl, fun hne => absurd h hne⟩
  · rw [if_neg h]
    refine ⟨fun hc => absurd hc h, fun _ => ⟨?_, ?_, ?_⟩⟩
    · intro p hp
      rw [hp]
    · intro e1 p hp hf
      rw [hp, hf]
    · intro e1 e2 hp hf
      rw [hp, hf]

theorem claim_C6_witness :
    synthesize "   " (.ok "a.wav") (.ok "b.mp3") = .error .emptyText ∧
    synthesize "hi" (.ok "a.wav") (.err "net down") = .ok "a.wav" ∧
    synthesize "hi" (.err "no voice") (.ok "b.mp3") = .ok "b.mp3" ∧
    synthesize "hi" (.err "no voice") (.err "net down") =
      .error (.bothFailed "no voice" "net down") :=
  ⟨(claim_C6_synthesize "   " (.ok "a.wav") (.ok "b.mp3")).1 (by decide),
   ((claim_C6_synthesize "hi" (.ok "a.wav") (.err "net down")).2 (by decide)).1 "a.wav" rfl,
   (((claim_C6_synthesize "hi" (.err "no voice") (.ok "b.mp3")).2 (by decide)).2.1
     "no voice" "b.mp3" rfl rfl),
   (((claim_C6_synthesize "hi" (.err "no voice") (.err "net down")).2 (by decide)).2.2
     "no voice" "net down" rfl rfl)⟩

/-- C9: assemble fails with NoFramesError when the recursive,
case-insensitive-extension scan finds zero image files (regardless of
whether the muxing tool is available, so no output is produced), and fails
with MissingToolError when images exist but the muxing tool is
unavailable. -/
theorem claim_C9_assemble (files : List String) (ffmpegAvailable : Bool) :
    (files.filter isImageFile = [] →
      assemble files ffmpegAvailable = .error .noFrames) ∧
    (files.filter isImageFile ≠ [] → ffmpegAvailable = false →
      assemble files ffmpegAvailable = .error .missingTool) := by
  unfold assemble
  constructor
  · intro h
    rw [h]
    simp
  · intro h hff
    have hne : (files.filter isImageFile).mergeSort (fun a b => a ≤ b) ≠ [] := by
      intro hc
      have h2 := congrArg List.length hc
      rw [List.length_mergeSort] at h2
      exact h (List.eq_nil_of_length_eq_zero h2)
    rw [hff]
    simp only [if_neg hne]
    rfl

theorem claim_C9_witness :
    assemble ["frames/readme.txt", "frames/notes.md"] true = .error .noFrames ∧
    assemble ["frames/scene_01/frame_000001.PNG"] false = .error .missingTool :=
  ⟨(claim_C9_assemble ["frames/readme.txt", "frames/notes.md"] true).1 (by decide),
   (claim_C9_assemble ["frames/scene_01/frame_000001.PNG"] false).2 (by decide) rfl⟩

/-- C10: get_audio_duration is total over its error branches: it never
raises; when decoding the WAV header fails (including a zero sample rate,
whose division would otherwise raise) it falls back to the external
metadata probe, and when that fallback also fails it returns 0.0 instead
of propagating an error. -/
theorem claim_C10_duration_total (header : Option (Nat × Nat)) (probe : Option ℚ) :
    (∀ d, readWavDuration header = .ok d → get_audio_duration header probe = d) ∧
    (∀ e d, readWavDuration header = .error e → ffprobeDuration probe = .ok d →
      get_audio_duration header probe = d) ∧
    (∀ e e2, readWavDuration header = .error e → ffprobeDuration probe = .error e2 →
      get_audio_duration header probe = 0) := by
  refine ⟨?_, ?_, ?_⟩
  · intro d hd
    unfold get_audio_duration
    rw [hd]
  · intro e d he hd
    unfold get_audio_duration
    rw [he, hd]
  · intro e e2 he he2
    unfold get_audio_duration
    rw [he, he2]

theorem claim_C10_witness :
    get_audio_duration (some (44100, 22050)) none = 2 ∧
    get_audio_duration (some (5, 0)) (some (7/2)) = 7/2 ∧
    get_audio_duration none none = 0 :=
  ⟨(claim_C10_duration_total (some (44100, 22050)) none).1 2
     (by norm_num [readWavDuration]),
   (claim_C10_duration_total (some (5, 0)) (some (7/2))).2.1 "division by zero" (7/2)
     (by norm_num [readWavDuration]) rfl,
   (claim_C10_duration_total none none).2.2 "wave decode failed" "ffprobe failed" rfl rfl⟩

/-! ### Renderer lemmas -/

/-- The file names `frame_000001 .. frame_N` written for one scene. -/
def frameNames (n : Nat) : List String :=
  (List.range n).map (fun i => "frame_" ++ padZeros 6 (i + 1))

theorem gsf_names (hash : String → String) (cache : List (String × Image))
    (prompts : List String) (s : Scene) (n : Nat) :
    ((generate_scene_frames hash cache prompts s n).2).map Prod.fst = frameNames n := by
  unfold generate_scene_frames frameNames
  cases hl : lookupCache cache (hash (primaryPrompt prompts)) <;>
    simp [hl, List.map_map, Function.comp]

theorem max_one_pyTrunc (q : ℚ) : max 1 (pyTrunc q) = max 1 ⌊q⌋ := by
  unfold pyTrunc
  split_ifs with h
  · rfl
  · push_neg at h
    have h0 : (0 : ℤ) ≤ ⌊-q⌋ := by
      rw [show (0 : ℤ) = ⌊(0 : ℚ)⌋ from Int.floor_zero.symm]
      exact Int.floor_le_floor (by linarith)
    have h2 : ⌊q⌋ ≤ 0 := by
      rw [show (0 : ℤ) = ⌊(0 : ℚ)⌋ from Int.floor_zero.symm]
      exact Int.floor_le_floor h.le
    rw [max_eq_left (by omega), max_eq_left (by omega)]

theorem num_frames_floor (d : ℚ) (fps : Nat) :
    num_frames d fps = (max 1 ⌊d * (fps : ℚ)⌋).toNat := by
  unfold num_frames
  rw [max_one_pyTrunc]

theorem renderFold_dirs (hash : String → String) (fps : Nat) (scenes : List Scene) :
    ∀ out : RenderOut,
      ((scenes.foldl (renderStep hash fps) out).dirs).map (fun d => (d.1, d.2.map Prod.fst)) =
        out.dirs.map (fun d => (d.1, d.2.map Prod.fst)) ++
          scenes.map (fun s => (s.scene_id, frameNames (num_frames (durationOf s) fps))) := by
  induction scenes with
  | nil => intro out; simp
  | cons s t ih =>
      intro out
      have hstep : ((renderStep hash fps out s).dirs).map (fun d => (d.1, d.2.map Prod.fst)) =
          out.dirs.map (fun d => (d.1, d.2.map Prod.fst)) ++
            [(s.scene_id, frameNames (num_frames (durationOf s) fps))] := by
        unfold renderStep
        simp [gsf_names]
      rw [List.foldl_cons, ih (renderStep hash fps out s), hstep, List.append_assoc]
      simp

/-- C5: for every scene, render writes exactly
N = max(1, floor(duration_hint-or-2.0 * fps)) frame files into that
scene's directory, named frame_000001 through frame_N; in particular
duration 2.0 at 24 fps yields exactly 48 frames. -/
theorem claim_C5_frame_counts :
    (∀ (hash : String → String) (scenes : List Scene) (fps : Nat) (out : RenderOut),
      generate_frames hash scenes fps = .ok out →
      out.dirs.map (fun d => (d.1, d.2.map Prod.fst)) =
        scenes.map (fun s => (s.scene_id,
          (List.range (max 1 ⌊(s.duration_hint.getD 2) * (fps : ℚ)⌋).toNat).map
            (fun i => "frame_" ++ padZeros 6 (i + 1))))) ∧
    num_frames 2 24 = 48 := by
  constructor
  · intro hash scenes fps out hout
    unfold generate_frames at hout
    split_ifs at hout with h
    have hfold := Except.ok.inj hout
    subst hfold
    rw [renderFold_dirs]
    simp only [List.map_nil, List.nil_append, frameNames, num_frames_floor, durationOf]
  · norm_num [num_frames, pyTrunc]
    decide

def sceneC5 : Scene :=
  { scene_id := "scene_01", start_cue := none, description := "d",
    characters := [], dialogue := [], visual_prompts := ["p"], duration_hint := some 3 }

def imgC5 : Image := { title := "SCENE 01", promptText := "p", descText := "d" }

def outC5 : RenderOut :=
  { cache := [("p", imgC5)],
    dirs := [("scene_01",
      [("frame_000001", imgC5), ("frame_000002", imgC5), ("frame_000003", imgC5)])] }

theorem claim_C5_witness :
    generate_frames (fun k => k) [sceneC5] 1 = .ok outC5 ∧
    outC5.dirs.map (fun d => (d.1, d.2.map Prod.fst)) =
      [sceneC5].map (fun s => (s.scene_id,
        (List.range (max 1 ⌊(s.duration_hint.getD 2) * ((1 : Nat) : ℚ)⌋).toNat).map
          (fun i => "frame_" ++ padZeros 6 (i + 1)))) := by
  have hn : num_frames (durationOf sceneC5) 1 = 3 := by
    norm_num [durationOf, sceneC5, num_frames, pyTrunc]
    decide
  have hout : generate_frames (fun k => k) [sceneC5] 1 = .ok outC5 := by
    unfold generate_frames
    rw [if_neg (by decide : ([sceneC5] : List Scene) ≠ [])]
    simp only [List.foldl_cons, List.foldl_nil, renderStep, hn]
    decide
  exact ⟨hout, claim_C5_frame_counts.1 (fun k => k) [sceneC5] 1 outC5 hout⟩

theorem render_two_scenes (hash : String → String) (fps : Nat) (s1 s2 : Scene)
    (hp : primaryPrompt (effectivePrompts s2) = primaryPrompt (effectivePrompts s1)) :
    ([s1, s2].foldl (renderStep hash fps) ⟨[], []⟩ : RenderOut) =
      { cache := [(hash (primaryPrompt (effectivePrompts s1)),
                   render_fallback_frame (primaryPrompt (effectivePrompts s1)) s1)],
        dirs := [(s1.scene_id,
                  (List.range (num_frames (durationOf s1) fps)).map
                    (fun i => ("frame_" ++ padZeros 6 (i + 1),
                      render_fallback_frame (primaryPrompt (effectivePrompts s1)) s1))),
                 (s2.scene_id,
                  (List.range (num_frames (durationOf s2) fps)).map
                    (fun i => ("frame_" ++ padZeros 6 (i + 1),
                      render_fallback_frame (primaryPrompt (effectivePrompts s1)) s1)))] } := by
  simp only [List.foldl_cons, List.foldl_nil]
  unfold renderStep generate_scene_frames
  rw [hp]
  simp [lookupCache]

/-- C3: the frame cache key is a hash of only the scene's first visual
prompt, so rendering two scenes whose first visual prompts are identical
produces exactly one cache entry (keyed by that shared prompt's hash), and
every frame file written in both scene directories is pixel-identical to
that single cached base image. -/
theorem claim_C3_cache_dedup (hash : String → String) (s1 s2 : Scene) (fps : Nat)
    (out : RenderOut)
    (hp : primaryPrompt (effectivePrompts s1) = primaryPrompt (effectivePrompts s2))
    (hout : generate_frames hash [s1, s2] fps = .ok out) :
    out.cache = [(hash (primaryPrompt (effectivePrompts s1)),
                  render_fallback_frame (primaryPrompt (effectivePrompts s1)) s1)] ∧
    ∀ d ∈ out.dirs, ∀ f ∈ d.2,
      f.2 = render_fallback_frame (primaryPrompt (effectivePrompts s1)) s1 := by
  unfold generate_frames at hout
  rw [if_neg (by simp : ¬([s1, s2] : List Scene) = [])] at hout
  have hfold := Except.ok.inj hout
  subst hfold
  rw [render_two_scenes hash fps s1 s2 hp.symm]
  refine ⟨rfl, ?_⟩
  intro d hd f hf
  rcases List.mem_cons.1 hd with rfl | hd2
  · rcases List.mem_map.1 hf with ⟨i, _, rfl⟩
    rfl
  · rcases List.mem_cons.1 hd2 with rfl | hd3
    · rcases List.mem_map.1 hf with ⟨i, _, rfl⟩
      rfl
    · exact absurd hd3 (List.not_mem_nil d)

def sceneC3a : Scene :=
  { scene_id := "scene_01", start_cue := none, description := "first",
    characters := [], dialogue := [], visual_prompts := ["shared prompt"],
    duration_hint := some 1 }

def sceneC3b : Scene :=
  { scene_id := "scene_02", start_cue := none, description := "second",
    characters := [], dialogue := [], visual_prompts := ["shared prompt", "extra"],
    duration_hint := some 1 }

def imgC3 : Image :=
  { title := "SCENE 01", promptText := "shared prompt", descText := "first" }

def outC3 : RenderOut :=
  { cache := [("shared prompt", imgC3)],
    dirs := [("scene_01", [("frame_000001", imgC3)]),
             ("scene_02", [("frame_000001", imgC3)])] }

theorem claim_C3_witness :
    generate_frames (fun k => k) [sceneC3a, sceneC3b] 1 = .ok outC3 ∧
    outC3.cache = [("shared prompt", imgC3)] ∧
    ∀ d ∈ outC3.dirs, ∀ f ∈ d.2, f.2 = imgC3 := by
  have hn1 : num_frames (durationOf sceneC3a) 1 = 1 := by
    norm_num [durationOf, sceneC3a, num_frames, pyTrunc]
  have hn2 : num_frames (durationOf sceneC3b) 1 = 1 := by
    norm_num [durationOf, sceneC3b, num_frames, pyTrunc]
  have hout : generate_frames (fun k => k) [sceneC3a, sceneC3b] 1 = .ok outC3 := by
    unfold generate_frames
    rw [if_neg (by decide : ([sceneC3a, sceneC3b] : List Scene) ≠ [])]
    rw [render_two_scenes (fun k => k) 1 sceneC3a sceneC3b (by decide), hn1, hn2]
    decide
  have h := claim_C3_cache_dedup (fun k => k) sceneC3a sceneC3b 1 outC3 (by decide) hout
  exact ⟨hout, h.1, h.2⟩

/-! ### Audio normalization lemmas -/

theorem mixPairs_length : ∀ (l m : List ℚ), mixPairs l = some m → l.length = 2 * m.length := by
  intro l
  induction l using mixPairs.induct with
  | case1 =>
      intro m h
      simp [mixPairs] at h
      subst h
      rfl
  | case2 =>
      intro m h
      simp [mixPairs] at h
  | case3 a r t ih =>
      intro m h
      simp only [mixPairs, Option.map_eq_some'] at h
      obtain ⟨m1, hm1, rfl⟩ := h
      have := ih m1 hm1
      simp only [List.length_cons]
      omega

theorem tostereo_length (l : List ℚ) : (tostereo l).length = 2 * l.length := by
  induction l with
  | nil => rfl
  | cons x t ih =>
      simp only [tostereo, List.foldr_cons, List.length_cons] at *
      omega

theorem sqrtQ_pos {q : ℚ} (h : 0 < q) : 0 < sqrtQ q := by
  unfold sqrtQ
  have hden : (0 : ℚ) < (q.den : ℚ) := by
    exact_mod_cast q.den_pos
  apply div_pos ?_ hden
  have hnum : 0 < q.num := Rat.num_pos.mpr h
  have hnz : 0 < q.num.toNat := by omega
  have hprod : 0 < q.num.toNat * q.den := Nat.mul_pos hnz q.den_pos
  have hsqrt : 0 < Nat.sqrt (q.num.toNat * q.den) := Nat.sqrt_pos.mpr hprod
  exact_mod_cast hsqrt

theorem normalizeAudioop_shape (w : Wav) :
    (normalizeAudioop w).nchannels = w.nchannels ∧
    (normalizeAudioop w).sampwidth = w.sampwidth ∧
    (normalizeAudioop w).framerate = w.framerate ∧
    (normalizeAudioop w).samples.length = w.samples.length := by
  unfold normalizeAudioop
  by_cases hch : w.nchannels = 2
  · simp only [if_pos hch]
    cases hmix : mixPairs w.samples with
    | none => simp
    | some mono =>
        by_cases hcur : rmsInt mono = 0
        · simp [hcur]
        · have hlen := mixPairs_length w.samples mono hmix
          simp [hcur, if_pos hch, tostereo_length, List.length_map, hlen]
  · simp only [if_neg hch]
    by_cases hcur : rmsInt w.samples = 0
    · simp [hcur]
    · simp [hcur, if_neg hch, List.length_map]

theorem normalizeNumpy_shape (w : Wav) :
    normalizeNumpy w = w ∨
    ((normalizeNumpy w).nchannels = 1 ∧
     (normalizeNumpy w).sampwidth = 2 ∧
     (normalizeNumpy w).framerate = w.framerate ∧
     (w.nchannels = 2 → (normalizeNumpy w).samples.length * 2 = w.samples.length) ∧
     (w.nchannels ≠ 2 → (normalizeNumpy w).samples.length = w.samples.length)) := by
  unfold normalizeNumpy
  by_cases hsw : w.sampwidth = 2 ∨ w.sampwidth = 1
  · simp only [if_pos hsw]
    set decoded := if w.sampwidth = 2 then w.samples.map (fun x => x / 32768)
      else w.samples.map (fun x => (x - 128) / 128) with hdec
    have hdlen : decoded.length = w.samples.length := by
      rw [hdec]
      split_ifs <;> simp
    by_cases hch : w.nchannels = 2
    · simp only [if_pos hch]
      cases hmix : mixPairs decoded with
      | none => exact Or.inl (by simp)
      | some audio =>
          by_cases hcur :
              sqrtQ ((audio.map (fun x => x ^ 2)).sum / (audio.length : ℚ)) = 0
          · simp only [if_pos hcur]
            exact Or.inl (by simp)
          · simp only [if_neg hcur]
            right
            have hlen := mixPairs_length decoded audio hmix
            refine ⟨by simp, by simp, by simp, fun _ => ?_, fun hne => absurd hch hne⟩
            simp only [List.length_map]
            omega
    · simp only [if_neg hch]
      by_cases hcur :
          sqrtQ ((decoded.map (fun x => x ^ 2)).sum / (decoded.length : ℚ)) = 0
      · simp only [if_pos hcur]
        exact Or.inl (by simp)
      · simp only [if_neg hcur]
        right
        refine ⟨by simp, by simp, by simp, fun hc => absurd hc hch, fun _ => ?_⟩
        simp only [List.length_map]
        exact hdlen
  · simp only [if_neg hsw]
    exact Or.inl (by simp)

/-- C2 counterexample: under the numpy fallback branch of the
normalization pass, the stereo 16-bit input `wavC2` with 4 decoded
samples is rewritten to mono with only 2 samples — the sample count is
not preserved. -/
def wavC2 : Wav :=
  { nchannels := 2, sampwidth := 2, framerate := 8000,
    samples := [16384, 16384, 16384, 16384] }

theorem claim_C2_counterexample :
    wavC2.samples.length = 4 ∧ (normalize_audio false wavC2).samples.length = 2 := by
  refine ⟨by simp [wavC2], ?_⟩
  unfold normalize_audio
  rw [if_neg (by simp [wavC2] : ¬(wavC2.samples = []))]
  rw [if_neg (by decide : ¬((false : Bool) = true))]
  unfold normalizeNumpy
  have hsw : wavC2.sampwidth = 2 ∨ wavC2.sampwidth = 1 := Or.inl rfl
  simp only [if_pos hsw]
  have hdec : (if wavC2.sampwidth = 2 then wavC2.samples.map (fun x => x / 32768)
      else wavC2.samples.map (fun x => (x - 128) / 128)) =
      [(1 : ℚ)/2, 1/2, 1/2, 1/2] := by
    norm_num [wavC2]
  have hc2 : wavC2.nchannels = 2 := rfl
  rw [hdec, if_pos hc2]
  have hmix : mixPairs [(1 : ℚ)/2, 1/2, 1/2, 1/2] = some [1/2, 1/2] := by
    norm_num [mixPairs]
  rw [hmix]
  have hms : ((([(1 : ℚ)/2, 1/2]).map (fun x => x ^ 2)).sum /
      ((([(1 : ℚ)/2, 1/2]).length : ℕ) : ℚ)) = 1/4 := by
    norm_num
  have hsq : ¬ sqrtQ ((([(1 : ℚ)/2, 1/2]).map (fun x => x ^ 2)).sum /
      ((([(1 : ℚ)/2, 1/2]).length : ℕ) : ℚ)) = 0 := by
    rw [hms]
    exact (sqrtQ_pos (by norm_num)).ne'
  simp only [if_neg hsq]
  simp

/-- C2 amended: the normalization pass never changes the frame rate or the
duration, and any internal failure (odd stereo data, silence, unsupported
sample width) is non-fatal, leaving the audio unchanged; however the
sample count is preserved only on the audioop branch — the numpy fallback
branch always rewrites to mono 16-bit, so a stereo input's decoded sample
count is halved (frame count and duration are still preserved). -/
theorem claim_C2_amended (w : Wav) :
    ((normalize_audio true w).nchannels = w.nchannels ∧
     (normalize_audio true w).sampwidth = w.sampwidth ∧
     (normalize_audio true w).framerate = w.framerate ∧
     (normalize_audio true w).samples.length = w.samples.length ∧
     wavDuration (normalize_audio true w) = wavDuration w) ∧
    ((w.nchannels = 1 ∨ w.nchannels = 2) →
      wavDuration (normalize_audio false w) = wavDuration w ∧
      (normalize_audio false w = w ∨
        ((normalize_audio false w).nchannels = 1 ∧
         (normalize_audio false w).sampwidth = 2 ∧
         (normalize_audio false w).samples.length * w.nchannels = w.samples.length))) := by
  constructor
  · unfold normalize_audio
    by_cases hemp : w.samples = []
    · rw [if_pos hemp]
      exact ⟨rfl, rfl, rfl, rfl, rfl⟩
    · rw [if_neg hemp, if_pos (rfl : (true : Bool) = true)]
      obtain ⟨h1, h2, h3, h4⟩ := normalizeAudioop_shape w
      refine ⟨h1, h2, h3, h4, ?_⟩
      unfold wavDuration
      rw [h1, h3, h4]
  · intro hch
    unfold normalize_audio
    by_cases hemp : w.samples = []
    · rw [if_pos hemp]
      exact ⟨rfl, Or.inl rfl⟩
    · rw [if_neg hemp, if_neg (by decide : ¬((false : Bool) = true))]
      rcases normalizeNumpy_shape w with heq | ⟨h1, h2, h3, h4, h5⟩
      · rw [heq]
        exact ⟨rfl, Or.inl rfl⟩
      · have hlen : (normalizeNumpy w).samples.length * w.nchannels = w.samples.length := by
          rcases hch with hc | hc
          · have := h5 (by rw [hc]; decide)
            rw [hc]
            omega
          · have := h4 hc
            rw [hc]
            omega
        refine ⟨?_, Or.inr ⟨h1, h2, hlen⟩⟩
        unfold wavDuration
        rw [h1, h3]
        have hnch : ((w.nchannels : ℚ)) ≠ 0 := by
          rcases hch with hc | hc <;> rw [hc] <;> norm_num
        have hq : ((normalizeNumpy w).samples.length : ℚ) * (w.nchannels : ℚ) =
            (w.samples.length : ℚ) := by
          exact_mod_cast hlen
        rw [← hq]
        field_simp

theorem claim_C2_witness :
    (normalize_audio true wavC2).samples.length = wavC2.samples.length ∧
    wavDuration (normalize_audio false wavC2) = wavDuration wavC2 :=
  ⟨(claim_C2_amended wavC2).1.2.2.2.1,
   ((claim_C2_amended wavC2).2 (Or.inr rfl)).1⟩
